import Mathlib

/-!
# Verification of the GraphRAG research platform

Shallow embedding of the community-based retrieval engine and its frontend
caller layer, with theorems checking the natural-language specification
against the code.

* Frontend API client (`api-client.ts`): `makeRequest`, `handleAPIResponse`.
* Frontend utilities (`utils.ts`): `truncateText`.
* GraphRAG dashboard page (`graphrag/page.tsx`): cache management buttons.
* Engine (community detector, persistent cache, map-reduce answer engine):
  the backend implementation files are not present in the repository
  checkout, only their documentation and callers; those parts are modelled
  from the specification and are marked as such.
-/

/-! ## JavaScript value model

The API client is generic TypeScript operating on JSON-parsed values; JS
truthiness of those values matters for `handleAPIResponse`, so values are
modelled with enough structure to distinguish falsy payloads.  Objects and
arrays are carried by their serialized text (they are always truthy). -/

inductive JSVal where
  | null
  | bool (b : Bool)
  | num (n : Int)
  | str (s : String)
  | obj (src : String)
  | arr (src : String)
deriving DecidableEq

/-- JS truthiness: `null`, `false`, `0`, and the empty string are falsy;
objects and arrays are always truthy. -/
def jsTruthy : JSVal → Bool
  | JSVal.null => false
  | JSVal.bool b => b
  | JSVal.num n => n != 0
  | JSVal.str s => s != ""
  | JSVal.obj _ => true
  | JSVal.arr _ => true

/-- `APIResponse<T>` from `types/api` as used in `api-client.ts`:
optional `data`, optional `error` message, numeric `status`. -/
structure APIResponse where
  data : Option JSVal
  error : Option String
  status : Nat
deriving DecidableEq

/-- A value thrown inside the `try` block of `APIClient.makeRequest`:
either the `APIError` the method itself constructs (message, optional
numeric status, optional status text), an ordinary `Error` (network
failure, JSON parse failure), or a non-`Error` thrown value. -/
inductive JSError where
  | apiError (message : String) (status : Option Nat) (statusText : Option String)
  | jsErr (message : String)
  | nonError
deriving DecidableEq

deriving instance DecidableEq for Except

/-- The observable outcome of the `fetch` call inside `makeRequest`:
the promise rejects with an `Error`, rejects with a non-`Error` value, or
resolves to a response with `ok` flag, `status`, `statusText`, and a body
field. `body = none` models a response without a JSON content type (no
parse is attempted); `body = some (Except.error msg)` models a JSON
content type whose `response.json()` rejects with message `msg`;
`body = some (Except.ok v)` models a successfully parsed JSON value. -/
inductive FetchOutcome where
  | networkError (msg : String)
  | thrownNonError
  | response (ok : Bool) (status : Nat) (statusText : String)
      (body : Option (Except String JSVal))
deriving DecidableEq

/-- The `try` block of `APIClient.makeRequest` (`api-client.ts` 51-75):
await `fetch`; if the content type is JSON, await `response.json()`; if
`!response.ok`, throw an `APIError` carrying the HTTP status; otherwise
return `{ data, status }`.  A thrown value is an `Except.error`. -/
def tryBlock : FetchOutcome → Except JSError APIResponse
  | FetchOutcome.networkError msg => Except.error (JSError.jsErr msg)
  | FetchOutcome.thrownNonError => Except.error JSError.nonError
  | FetchOutcome.response ok status statusText body =>
    match body with
    | some (Except.error msg) => Except.error (JSError.jsErr msg)
    | some (Except.ok v) =>
      if ok then Except.ok { data := some v, error := none, status := status }
      else Except.error (JSError.apiError
        ("HTTP error " ++ toString status ++ ": " ++ statusText)
        (some status) (some statusText))
    | none =>
      if ok then Except.ok { data := none, error := none, status := status }
      else Except.error (JSError.apiError
        ("HTTP error " ++ toString status ++ ": " ++ statusText)
        (some status) (some statusText))

/-- The `catch` clause of `APIClient.makeRequest` (`api-client.ts` 76-88):
an `APIError` yields `{ error: message, status: error.status || 500 }`
(JS `||` falls back to 500 when the status is absent or `0`); any other
`Error` yields its message with status 500; a non-`Error` thrown value
yields the fixed message with status 500. -/
def catchClause : JSError → APIResponse
  | JSError.apiError msg status _ =>
    { data := none, error := some msg,
      status := match status with
        | some s => if s = 0 then 500 else s
        | none => 500 }
  | JSError.jsErr msg => { data := none, error := some msg, status := 500 }
  | JSError.nonError =>
    { data := none, error := some "Unknown error occurred", status := 500 }

/-- `APIClient.makeRequest` (`api-client.ts` 40-89): the `try` block with
every thrown value routed through the `catch` clause, so the method always
returns an `APIResponse` value. -/
def makeRequest (o : FetchOutcome) : APIResponse :=
  match tryBlock o with
  | Except.ok r => r
  | Except.error e => catchClause e

/-- The HTTP status carried by a thrown value, if any. -/
def errStatus : JSError → Option Nat
  | JSError.apiError _ s _ => s
  | JSError.jsErr _ => none
  | JSError.nonError => none

/-- Result of `handleAPIResponse`: either an `APIError` is thrown
(message and status) or the data value is returned. -/
inductive HandleResult where
  | threw (message : String) (status : Nat)
  | returned (v : JSVal)
deriving DecidableEq

/-- JS truthiness of the optional `error` string field: truthy exactly
when present and non-empty. -/
def errTruthy : Option String → Bool
  | some s => s != ""
  | none => false

/-- JS truthiness of the optional `data` field: truthy exactly when
present and holding a truthy value. -/
def dataTruthy : Option JSVal → Bool
  | some v => jsTruthy v
  | none => false

/-- `handleAPIResponse` (`api-client.ts` 212-222):
`if (response.error) throw ...; if (!response.data) throw ...; return
response.data;` with JS truthiness on both tests. -/
def handleAPIResponse (r : APIResponse) : HandleResult :=
  if errTruthy r.error then HandleResult.threw (r.error.getD "") r.status
  else if !dataTruthy r.data then
    HandleResult.threw "No data received from API" r.status
  else HandleResult.returned (r.data.getD JSVal.null)

/-! ## Frontend text utility (`utils.ts`) -/

/-- JS `s.slice(0, e)` for an integer `e`: a negative end index counts
from the end of the string (clamped at 0), a non-negative one is clamped
at the length. -/
def jsSliceTo (s : String) (e : Int) : String :=
  let len : Int := s.length
  let stop := if e < 0 then max (len + e) 0 else min e len
  String.mk (s.data.take stop.toNat)

/-- `truncateText` (`utils.ts` 190-195): return the text unchanged when
`text.length <= maxLength`, otherwise `text.slice(0, maxLength) + "..."`.
`maxLength` is a JS number, so it may be negative. -/
def truncateText (text : String) (maxLength : Int) : String :=
  if (text.length : Int) ≤ maxLength then text
  else jsSliceTo text maxLength ++ "..."

/-! ## GraphRAG page cache management (`graphrag/page.tsx`) -/

/-- The cache management actions of the `CacheManage` endpoint. -/
inductive CacheAction where
  | warm
  | clear
  | validate
deriving DecidableEq

/-- The cache-management controls the GraphRAG page renders
(`graphrag/page.tsx` 466-502): Warm Cache, Validate Cache, Refresh Stats
and Clear Cache buttons. -/
inductive CacheButton where
  | warmCache
  | validateCache
  | refreshStats
  | clearCache
deriving DecidableEq

/-- Observable steps a cache-related click handler performs, in order.
`showConfirmDialog` is the step an explicit user-confirmation guard would
contribute (a `confirm()` call or a confirmation modal). -/
inductive UIEffect where
  | setLoading
  | showConfirmDialog
  | sendCacheRequest (a : CacheAction)
  | logResult
deriving DecidableEq

/-- `manageCacheAction` (`graphrag/page.tsx` 140-161): set the loading
state, immediately issue the cache-manage request via
`apiClient.manageGraphRAGCache`, then log the result.  The handler
contains no confirmation prompt of any kind. -/
def manageCacheAction (a : CacheAction) : List UIEffect :=
  [UIEffect.setLoading, UIEffect.sendCacheRequest a, UIEffect.logResult]

/-- The `onClick` wiring of the four cache buttons
(`graphrag/page.tsx` 466-502): Warm/Validate/Clear call
`manageCacheAction` with the respective action; Refresh Stats calls
`fetchCacheStats`, which only reads statistics. -/
def clickEffects : CacheButton → List UIEffect
  | CacheButton.warmCache => manageCacheAction CacheAction.warm
  | CacheButton.validateCache => manageCacheAction CacheAction.validate
  | CacheButton.refreshStats => [UIEffect.setLoading]
  | CacheButton.clearCache => manageCacheAction CacheAction.clear

/-! ## Engine data model

Modelled from the spec: the backend engine (community detector, persistent
cache, community summarizer, map-reduce answer engine, `backend/` in the
documentation) is not present in the repository checkout; only its
documentation (`GraphRAG Transport Network Implementation` guide) and its
frontend callers are.  The definitions in this section follow the
specification text. -/

/-- The four clustering dimensions. -/
inductive Dimension where
  | geographic
  | operational
  | temporal
  | service_type
deriving DecidableEq

/-- A year scope: all years, a single year, or an inclusive range. -/
inductive YearScope where
  | all
  | single (y : Nat)
  | range (lo hi : Nat)
deriving DecidableEq

/-- Graph-node kinds: station, transit line, administrative area, or
temporal anchor. -/
inductive EntityType where
  | station
  | line
  | area
  | yearAnchor
deriving DecidableEq

/-- Modelled from the spec: a graph entity as read from the store for a
given snapshot — id, kind, optional administrative containment, optional
declared transport mode, and the years in which it is observed. -/
structure Entity where
  eid : Nat
  etype : EntityType
  adminArea : Option String
  mode : Option String
  years : List Nat
deriving DecidableEq

/-- Service-relationship kinds with fixed priority weights. -/
inductive RelType where
  | serves
  | connects
  | containsRel
deriving DecidableEq

/-- A relationship between two entities. -/
structure Relationship where
  src : Nat
  dst : Nat
  rtype : RelType
deriving DecidableEq

/-- Modelled from the spec: a fixed, versioned, read-only graph snapshot —
the entity and relationship listings the detector reads from the store. -/
structure Snapshot where
  entities : List Entity
  rels : List Relationship
deriving DecidableEq

/-- The partition key from which a community id is derived, one
constructor per grouping scheme: administrative area, the "unassigned"
bucket, transport mode, historical era, evolution pattern, configured
snapshot year, and operational (Louvain) cluster label. -/
inductive PartitionKey where
  | area (name : String)
  | unassigned
  | mode (name : String)
  | era (name : String)
  | evolution (pattern : String)
  | snapshotYear (y : Nat)
  | louvain (label : Nat)
deriving DecidableEq

/-- Modelled from the spec: a community id is "deterministic from
(dimension, partition key, year scope)"; the triple itself is the id, and
`CommunityId.render` below is its stable string form. -/
structure CommunityId where
  dimension : Dimension
  key : PartitionKey
  scope : YearScope
deriving DecidableEq

def Dimension.name : Dimension → String
  | Dimension.geographic => "geographic"
  | Dimension.operational => "operational"
  | Dimension.temporal => "temporal"
  | Dimension.service_type => "service_type"

def YearScope.render : YearScope → String
  | YearScope.all => "all"
  | YearScope.single y => toString y
  | YearScope.range lo hi => toString lo ++ "-" ++ toString hi

def PartitionKey.render : PartitionKey → String
  | PartitionKey.area n => "area_" ++ n
  | PartitionKey.unassigned => "unassigned"
  | PartitionKey.mode n => "mode_" ++ n
  | PartitionKey.era n => "era_" ++ n
  | PartitionKey.evolution p => "evolution_" ++ p
  | PartitionKey.snapshotYear y => "snapshot_" ++ toString y
  | PartitionKey.louvain l => "louvain_" ++ toString l

/-- The stable string form of a community id. -/
def CommunityId.render (i : CommunityId) : String :=
  i.dimension.name ++ "/" ++ i.key.render ++ "/" ++ i.scope.render

/-- A named, typed cluster of entities: its id and its member entity ids. -/
structure Community where
  id : CommunityId
  members : List Nat
deriving DecidableEq

/-- Whether an entity is observed inside a year scope. -/
def Entity.inScope (e : Entity) : YearScope → Bool
  | YearScope.all => true
  | YearScope.single y => e.years.contains y
  | YearScope.range lo hi => e.years.any (fun y => decide (lo ≤ y) && decide (y ≤ hi))

/-- The community a partition key names: its id is the (dimension, key,
scope) triple and its members are the entity ids satisfying the key's
membership test. -/
def communityForKey (d : Dimension) (sc : YearScope)
    (memberOf : PartitionKey → Entity → Bool) (es : List Entity)
    (k : PartitionKey) : Community :=
  { id := { dimension := d, key := k, scope := sc },
    members := (es.filter (memberOf k)).map Entity.eid }

/-- Build one community per distinct partition key, then drop (never
merge) the communities below the minimum size. -/
def communitiesFromKeys (d : Dimension) (sc : YearScope)
    (keys : List PartitionKey) (memberOf : PartitionKey → Entity → Bool)
    (minSize : Nat) (es : List Entity) : List Community :=
  (keys.dedup.map (communityForKey d sc memberOf es)).filter
    (fun c => minSize ≤ c.members.length)

/-- The entities of a snapshot observed inside a year scope. -/
def scopedEntities (g : Snapshot) (sc : YearScope) : List Entity :=
  g.entities.filter (fun e => e.inScope sc)

/-- Modelled from the spec: geographic detection groups entities by
administrative containment; entities without a containment relationship go
to the "unassigned" community rather than being dropped. -/
def geoKeyOf (e : Entity) : PartitionKey :=
  match e.adminArea with
  | some a => PartitionKey.area a
  | none => PartitionKey.unassigned

def detectGeographic (g : Snapshot) (sc : YearScope) (minSize : Nat) :
    List Community :=
  communitiesFromKeys Dimension.geographic sc
    ((scopedEntities g sc).map geoKeyOf) (fun k e => geoKeyOf e == k) minSize
    (scopedEntities g sc)

/-- Modelled from the spec: service-type detection groups by declared
transport mode, one community per mode per year scope. -/
def modeKeyOf (e : Entity) : PartitionKey :=
  PartitionKey.mode (e.mode.getD "")

/-- The in-scope entities with a declared transport mode. -/
def modeEntities (g : Snapshot) (sc : YearScope) : List Entity :=
  (scopedEntities g sc).filter (fun e => e.mode.isSome)

def detectServiceType (g : Snapshot) (sc : YearScope) (minSize : Nat) :
    List Community :=
  communitiesFromKeys Dimension.service_type sc
    ((modeEntities g sc).map modeKeyOf) (fun k e => modeKeyOf e == k) minSize
    (modeEntities g sc)

/-- Modelled from the spec: fixed historical era buckets with hard-coded
year boundaries (name, first year, last year). -/
def eraBuckets : List (String × Nat × Nat) :=
  [("postwar_1945_1949", 1945, 1949),
   ("prewall_1950_1961", 1950, 1961),
   ("wall_era_1961_1989", 1961, 1989),
   ("postwall_1989_1995", 1989, 1995)]

/-- Whether an entity is observed in some year of an inclusive range. -/
def Entity.observedInRange (e : Entity) (lo hi : Nat) : Bool :=
  e.years.any (fun y => decide (lo ≤ y) && decide (y ≤ hi))

/-- Longest consecutive run scanner over an ascending year list. -/
def longestRunAux : List Nat → Nat → Nat → Nat → Nat
  | [], _, cur, best => max cur best
  | y :: ys, prev, cur, best =>
    if y = prev + 1 then longestRunAux ys y (cur + 1) best
    else longestRunAux ys y 1 (max cur best)

/-- The number of consecutive years in the longest run of an observation
list (order and duplicates irrelevant). -/
def longestRun (ys : List Nat) : Nat :=
  match ys.dedup.insertionSort (· ≤ ·) with
  | [] => 0
  | y :: rest => longestRunAux rest y 1 0

/-- Modelled from the spec: evolution-pattern buckets derived from how
many consecutive years an entity is observed. -/
def evolutionPattern (n : Nat) : String :=
  if n ≤ 1 then "single_year"
  else if n ≤ 5 then "short_lived"
  else if n ≤ 15 then "medium_lived"
  else "long_lived"

/-- Modelled from the spec and docs: the configured snapshot years. -/
def configuredSnapshotYears : List Nat :=
  [1946, 1950, 1961, 1970, 1975, 1980, 1989]

/-- Membership test for an era community. -/
def eraMember (k : PartitionKey) (e : Entity) : Bool :=
  eraBuckets.any (fun b =>
    (PartitionKey.era b.1 == k) && e.observedInRange b.2.1 b.2.2)

/-- Partition key of the evolution-pattern bucket of an entity. -/
def evolutionKeyOf (e : Entity) : PartitionKey :=
  PartitionKey.evolution (evolutionPattern (longestRun e.years))

/-- Membership test for a configured snapshot-year community. -/
def snapshotMember (k : PartitionKey) (e : Entity) : Bool :=
  configuredSnapshotYears.any (fun y =>
    (PartitionKey.snapshotYear y == k) && e.years.contains y)

/-- The era-bucket communities of temporal detection. -/
def eraCommunities (g : Snapshot) (sc : YearScope) (minSize : Nat) :
    List Community :=
  communitiesFromKeys Dimension.temporal sc
    (eraBuckets.map (fun b => PartitionKey.era b.1)) eraMember minSize
    (scopedEntities g sc)

/-- The evolution-pattern communities of temporal detection. -/
def evolutionCommunities (g : Snapshot) (sc : YearScope) (minSize : Nat) :
    List Community :=
  communitiesFromKeys Dimension.temporal sc
    ((scopedEntities g sc).map evolutionKeyOf)
    (fun k e => evolutionKeyOf e == k) minSize (scopedEntities g sc)

/-- The configured snapshot-year communities of temporal detection. -/
def snapshotCommunities (g : Snapshot) (sc : YearScope) (minSize : Nat) :
    List Community :=
  communitiesFromKeys Dimension.temporal sc
    (configuredSnapshotYears.map PartitionKey.snapshotYear) snapshotMember
    minSize (scopedEntities g sc)

/-- Modelled from the spec: temporal detection groups by (a) fixed era
buckets, (b) evolution-pattern buckets, and (c) one community per
configured snapshot year. -/
def detectTemporal (g : Snapshot) (sc : YearScope) (minSize : Nat) :
    List Community :=
  eraCommunities g sc minSize ++ evolutionCommunities g sc minSize ++
    snapshotCommunities g sc minSize

/-- Modelled from the spec: fixed priority weights by relationship type
(serves, connects, contains). -/
def relWeight : RelType → Int
  | RelType.serves => 3
  | RelType.connects => 2
  | RelType.containsRel => 1

/-- Total weight between two nodes in the undirected weighted service
graph: the sum of the weights of every relationship joining them. -/
def edgeWeight (g : Snapshot) (a b : Nat) : Int :=
  ((g.rels.filter (fun r =>
      (r.src == a && r.dst == b) || (r.src == b && r.dst == a))).map
    (fun r => relWeight r.rtype)).sum

/-- The station/line nodes of the operational graph for a scope, in
ascending id order (the deterministic processing order). -/
def operationalNodes (g : Snapshot) (sc : YearScope) : List Nat :=
  ((((g.entities.filter (fun e => e.inScope sc)).filter (fun e =>
      e.etype == EntityType.station || e.etype == EntityType.line)).map
    Entity.eid).dedup).insertionSort (· ≤ ·)

/-- Community label of a node under a label assignment (a node not in the
assignment keeps its own id as label). -/
def labelOf (ls : List (Nat × Nat)) (v : Nat) : Nat :=
  (((ls.find? (fun p => p.1 == v)).map Prod.snd)).getD v

/-- Weighted degree of a node (self-loops ignored). -/
def nodeDegree (g : Snapshot) (nodes : List Nat) (v : Nat) : Int :=
  (nodes.map (fun u => if u == v then 0 else edgeWeight g v u)).sum

/-- Total weight of the edges from a node into a community. -/
def weightToLabel (g : Snapshot) (nodes : List Nat) (ls : List (Nat × Nat))
    (v : Nat) (c : Nat) : Int :=
  (nodes.map (fun u =>
    if u != v && labelOf ls u == c then edgeWeight g v u else 0)).sum

/-- Sum of the weighted degrees of the members of a community. -/
def totDegree (g : Snapshot) (nodes : List Nat) (ls : List (Nat × Nat))
    (c : Nat) : Int :=
  (nodes.map (fun u =>
    if labelOf ls u == c then nodeDegree g nodes u else 0)).sum

/-- Twice the total edge weight of the graph (the `2m` normalizer). -/
def totalWeight2m (g : Snapshot) (nodes : List Nat) : Int :=
  (nodes.map (nodeDegree g nodes)).sum

/-- Scaled modularity gain of placing node `v` in community `c`
(the standard `2m * k_in - k_v * sigma_tot` numerator, over integers so
no precision is lost; `v` is removed from its community first). -/
def gain (g : Snapshot) (nodes : List Nat) (ls : List (Nat × Nat))
    (v c : Nat) : Int :=
  totalWeight2m g nodes * weightToLabel g nodes ls v c -
    nodeDegree g nodes v *
      (totDegree g nodes ls c -
        (if labelOf ls v == c then nodeDegree g nodes v else 0))

/-- Candidate `c1` with gain `s1` beats candidate `c2` with gain `s2`
when its gain is strictly larger, or the gains tie and `c1` has the lower
id — the deterministic tie-break of the spec. -/
def better (s1 : Int) (c1 : Nat) (s2 : Int) (c2 : Nat) : Bool :=
  s1 > s2 || (s1 == s2 && c1 < c2)

/-- Modelled from the spec: the community chosen for a node in one Louvain
step — the neighboring community of maximal modularity gain, starting from
the node's current community, with ties broken by lower id. -/
def pickCommunity (g : Snapshot) (nodes : List Nat) (ls : List (Nat × Nat))
    (v : Nat) : Nat :=
  let cands := ((nodes.filter (fun u =>
    u != v && edgeWeight g v u != 0)).map (labelOf ls)).dedup
  cands.foldl (fun best c =>
      if better (gain g nodes ls v c) c (gain g nodes ls v best) best then c
      else best)
    (labelOf ls v)

/-- One Louvain pass: process the nodes in ascending id order, moving each
to its chosen community. -/
def louvainPass (g : Snapshot) (nodes : List Nat) (ls : List (Nat × Nat)) :
    List (Nat × Nat) :=
  nodes.foldl (fun acc v =>
      (v, pickCommunity g nodes acc v) :: acc.filter (fun p => p.1 != v))
    ls

/-- Each node starts in its own community. -/
def initialLabels (nodes : List Nat) : List (Nat × Nat) :=
  nodes.map (fun v => (v, v))

/-- The label assignment a single Louvain pass produces. -/
def operationalLabels (g : Snapshot) (sc : YearScope) : List (Nat × Nat) :=
  louvainPass g (operationalNodes g sc)
    (initialLabels (operationalNodes g sc))

/-- Modelled from the spec: operational detection builds the undirected
weighted service graph over stations and lines and runs a
modularity-maximizing (Louvain-family) clustering with the lower-id
tie-break; each final label yields one community. -/
def detectOperational (g : Snapshot) (sc : YearScope) (minSize : Nat) :
    List Community :=
  communitiesFromKeys Dimension.operational sc
    ((operationalNodes g sc).map (fun v =>
      PartitionKey.louvain (labelOf (operationalLabels g sc) v)))
    (fun k e =>
      (operationalNodes g sc).contains e.eid &&
        (PartitionKey.louvain (labelOf (operationalLabels g sc) e.eid) == k))
    minSize
    (g.entities.filter (fun e => (operationalNodes g sc).contains e.eid))

/-- Modelled from the spec: `DetectCommunities(dimension, yearScope,
minCommunitySize)` — the per-dimension detection functions selected
through a single dispatch on the dimension tag. -/
def DetectCommunities (g : Snapshot) (d : Dimension) (sc : YearScope)
    (minSize : Nat) : List Community :=
  match d with
  | Dimension.geographic => detectGeographic g sc minSize
  | Dimension.operational => detectOperational g sc minSize
  | Dimension.temporal => detectTemporal g sc minSize
  | Dimension.service_type => detectServiceType g sc minSize

/-! ## Persistent cache (modelled from the spec) -/

/-- Modelled from the spec: the persistent key-value cache.  Entries are
keyed by canonical parameter hashes; a `Put` replaces the whole entry for
its key (regeneration always replaces the full entry, writes are atomic
per key), so the store is an association list with at most one live entry
per key, newest first. -/
structure PersistentCache where
  entries : List (String × String)
deriving DecidableEq

/-- `Put(key, payload)`: commit the full payload under the key, replacing
any previous entry for that key. -/
def PersistentCache.put (c : PersistentCache) (k p : String) :
    PersistentCache :=
  { entries := (k, p) :: c.entries.filter (fun e => e.1 != k) }

/-- `Get(key) -> (payload, found)`. -/
def PersistentCache.get (c : PersistentCache) (k : String) :
    Option String × Bool :=
  match c.entries.find? (fun e => e.1 == k) with
  | some e => (some e.2, true)
  | none => (none, false)

/-- `Invalidate(key)`: drop the entry for one key. -/
def PersistentCache.invalidate (c : PersistentCache) (k : String) :
    PersistentCache :=
  { entries := c.entries.filter (fun e => e.1 != k) }

/-- `Clear()`: empty the cache. -/
def PersistentCache.clearAll (_ : PersistentCache) : PersistentCache :=
  { entries := [] }

/-- Lexicographic comparison of character lists by code point (the
executable string ordering used to canonicalize and to order reduce
inputs). -/
def charListLe : List Char → List Char → Bool
  | [], _ => true
  | _ :: _, [] => false
  | a :: as, b :: bs =>
    if a.toNat < b.toNat then true
    else if b.toNat < a.toNat then false
    else charListLe as bs

/-- Lexicographic string comparison by code point. -/
def strLe (a b : String) : Bool :=
  charListLe a.data b.data

/-- `strLe` as a relation. -/
def strLeProp (a b : String) : Prop :=
  strLe a b = true

instance : DecidableRel strLeProp :=
  fun a b => inferInstanceAs (Decidable (strLe a b = true))

/-- Modelled from the spec: the canonical, order-independent cache key —
every parameter that influences the payload is rendered as a
`name=value` pair and the pairs are joined in sorted order, so two
logically identical requests hash identically regardless of argument
ordering. -/
def canonicalCacheKey (params : List (String × String)) : String :=
  String.intercalate "|"
    ((params.map (fun p => p.1 ++ "=" ++ p.2)).insertionSort strLeProp)

/-! ## Map-reduce answer engine (modelled from the spec) -/

/-- `max_communities_per_query` (`backend/config.py`, quoted in the
GraphRAG implementation guide): the hard cap on communities per query. -/
def graphragMaxCommunitiesPerQuery : Nat := 100

/-- Ranking relation for truncation: larger communities (by member count)
come first. -/
def byMemberCountDesc (a b : Community) : Prop :=
  b.members.length ≤ a.members.length

instance : DecidableRel byMemberCountDesc :=
  fun _ _ => Nat.decLe _ _

instance : IsTotal Community byMemberCountDesc :=
  ⟨fun a b => Nat.le_total b.members.length a.members.length⟩

instance : IsTrans Community byMemberCountDesc :=
  ⟨fun _ _ _ h1 h2 => le_trans h2 h1⟩

/-- Candidates sorted by member count, larger first (stable sort). -/
def rankBySize (cs : List Community) : List Community :=
  cs.insertionSort byMemberCountDesc

/-- The communities retained by truncation at a cap. -/
def selectTop (cap : Nat) (cs : List Community) : List Community :=
  (rankBySize cs).take cap

/-- The communities discarded by truncation at a cap. -/
def discardedBy (cap : Nat) (cs : List Community) : List Community :=
  (rankBySize cs).drop cap

/-- The candidate communities of a query: the detector output for each
requested dimension under the query's year scope. -/
def candidatesOf (g : Snapshot) (dims : List Dimension) (sc : YearScope)
    (minSize : Nat) : List Community :=
  dims.foldr (fun d acc => DetectCommunities g d sc minSize ++ acc) []

/-- `SelectCommunities`: the candidates truncated at the configured cap,
preferring larger communities. -/
def selectedOf (g : Snapshot) (dims : List Dimension) (sc : YearScope)
    (minSize : Nat) : List Community :=
  selectTop graphragMaxCommunitiesPerQuery (candidatesOf g dims sc minSize)

/-- Modelled from the spec: the text-generation capability as a
deterministic black-box environment — availability flag, per-community
summary generation (`none` models failure after the bounded retries),
per-summary map step (`none` models no relevant signal), and the reduce
synthesis call. -/
structure GenEnv where
  available : Bool
  summarize : Community → Option String
  mapStep : String → String → Option String
  reduceStep : List String → String

/-- Whether summary generation succeeds for a community. -/
def summaryOk (env : GenEnv) (c : Community) : Bool :=
  (env.summarize c).isSome

/-- `EnsureSummaries`: the selected communities whose summaries were
produced; failures are excluded rather than aborting the query. -/
def analyzedOf (env : GenEnv) (g : Snapshot) (dims : List Dimension)
    (sc : YearScope) (minSize : Nat) : List Community :=
  (selectedOf g dims sc minSize).filter (summaryOk env)

/-- The selected communities whose summary generation failed after
retries; recorded in result metadata. -/
def failedOf (env : GenEnv) (g : Snapshot) (dims : List Dimension)
    (sc : YearScope) (minSize : Nat) : List Community :=
  (selectedOf g dims sc minSize).filter (fun c => !summaryOk env c)

/-- Deterministic reduce ordering: communities by id string. -/
def byIdRender (a b : Community) : Prop :=
  strLeProp a.id.render b.id.render

instance : DecidableRel byIdRender :=
  fun a b => inferInstanceAs (Decidable (strLe a.id.render b.id.render = true))

/-- `Map`: ask the capability, per analyzed community in id order, whether
its summary answers the question; keep only the relevant outputs. -/
def mapOutputsOf (env : GenEnv) (q : String) (g : Snapshot)
    (dims : List Dimension) (sc : YearScope) (minSize : Nat) :
    List (Community × String) :=
  ((analyzedOf env g dims sc minSize).insertionSort byIdRender).filterMap
    (fun c => (env.mapStep ((env.summarize c).getD "") q).map (fun p => (c, p)))

/-- The error taxonomy of hard failures: store unavailability,
zero-candidate selection, total generation-capability unavailability. -/
inductive EngineError where
  | graphUnavailable
  | noCommunities
  | generationUnavailable
deriving DecidableEq

/-- `QueryResult`: the answer plus metadata — question type, number of
communities analyzed, the community ids referenced, the per-community
failures recorded, and the truncation flag. -/
structure QueryResult where
  answer : String
  questionType : String
  communitiesAnalyzed : Nat
  analyzedCommunityIds : List CommunityId
  failedCommunityIds : List CommunityId
  truncated : Bool
deriving DecidableEq

/-- Terminal states of the `AnswerGlobal` state machine. -/
inductive EngineOutcome where
  | Done (result : QueryResult)
  | Failed (err : EngineError)
deriving DecidableEq

/-- Modelled from the spec: the fixed "insufficient information" sentinel
answer returned when zero partial answers are relevant. -/
def insufficientInformation : String :=
  "Insufficient information in the analyzed communities to answer this question."

/-- Modelled from the spec: `AnswerGlobal(question, yearFilter,
dimensionFilter) -> QueryResult` — fail fast only on zero candidate
communities or a totally unavailable generation capability; otherwise
select, summarize (excluding per-community failures), map, and reduce,
answering with the sentinel when no map output is relevant. -/
def AnswerGlobal (g : Snapshot) (env : GenEnv) (q : String)
    (sc : YearScope) (dims : List Dimension) (minSize : Nat) :
    EngineOutcome :=
  if (candidatesOf g dims sc minSize).isEmpty then
    EngineOutcome.Failed EngineError.noCommunities
  else if !env.available then
    EngineOutcome.Failed EngineError.generationUnavailable
  else
    EngineOutcome.Done
      { answer :=
          if (mapOutputsOf env q g dims sc minSize).isEmpty then
            insufficientInformation
          else
            env.reduceStep ((mapOutputsOf env q g dims sc minSize).map Prod.snd),
        questionType := "global",
        communitiesAnalyzed := (analyzedOf env g dims sc minSize).length,
        analyzedCommunityIds :=
          (analyzedOf env g dims sc minSize).map Community.id,
        failedCommunityIds :=
          (failedOf env g dims sc minSize).map Community.id,
        truncated :=
          decide (graphragMaxCommunitiesPerQuery <
            (candidatesOf g dims sc minSize).length) }

/-! ## Concrete fixtures used by witnesses -/

/-- A community-list is id-functional when equal ids imply equal
membership within (or across equal runs of) a detection result. -/
def IdFunctional (cs : List Community) : Prop :=
  ∀ c ∈ cs, ∀ c' ∈ cs, c.id = c'.id → c.members = c'.members

def sampleEntity1 : Entity :=
  { eid := 1, etype := EntityType.station, adminArea := some "Mitte",
    mode := some "u-bahn", years := [1961] }

def sampleEntity2 : Entity :=
  { eid := 2, etype := EntityType.station, adminArea := some "Mitte",
    mode := some "u-bahn", years := [1961] }

def sampleEntity3 : Entity :=
  { eid := 3, etype := EntityType.station, adminArea := some "Pankow",
    mode := some "tram", years := [1961] }

def sampleSnapshot : Snapshot :=
  { entities := [sampleEntity1, sampleEntity2, sampleEntity3],
    rels := [{ src := 1, dst := 2, rtype := RelType.serves }] }

def sampleGeoCommunity : Community :=
  { id := { dimension := Dimension.geographic,
            key := PartitionKey.area "Mitte", scope := YearScope.all },
    members := [1, 2] }

/-- A generation environment whose map step finds nothing relevant. -/
def envNoRelevant : GenEnv :=
  { available := true,
    summarize := fun _ => some "summary",
    mapStep := fun _ _ => none,
    reduceStep := fun ps => String.intercalate " " ps }

/-- A generation environment whose summarization fails for the Pankow
community and succeeds elsewhere. -/
def envOneFails : GenEnv :=
  { available := true,
    summarize := fun c =>
      if c.id.key == PartitionKey.area "Pankow" then none else some "summary",
    mapStep := fun s q => some (s ++ "|" ++ q),
    reduceStep := fun ps => String.intercalate " " ps }

def bigCommunity : Community :=
  { id := { dimension := Dimension.geographic,
            key := PartitionKey.area "Mitte", scope := YearScope.all },
    members := [1, 2, 3] }

def smallCommunity : Community :=
  { id := { dimension := Dimension.geographic,
            key := PartitionKey.area "Pankow", scope := YearScope.all },
    members := [4] }

/-! ## Theorems -/

/-- Lengths of appended strings add. -/
theorem strLength_append (a b : String) :
    (a ++ b).length = a.length + b.length := by
  cases a with
  | mk la =>
    cases b with
    | mk lb =>
      show (la ++ lb).length = la.length + lb.length
      exact List.length_append la lb

/-- C8: `APIClient.makeRequest` is total over failures.  For every fetch
outcome, either the try block succeeds and its response — which carries no
error field — is returned unchanged, or a value was thrown (network error,
JSON parse failure, non-2xx status, non-`Error` value) and the caller
receives an `APIResponse` value carrying an error message and a numeric
status, 500 whenever the thrown value carried no usable status; nothing is
ever rethrown to the caller. -/
theorem makeRequest_total_over_failures (o : FetchOutcome) :
    match tryBlock o with
    | Except.ok r => makeRequest o = r ∧ r.error = none
    | Except.error e =>
        (makeRequest o).error.isSome = true ∧
        (makeRequest o).status =
          (match errStatus e with
           | some s => if s = 0 then 500 else s
           | none => 500) := by
  cases o with
  | networkError msg => simp [tryBlock, makeRequest, catchClause, errStatus]
  | thrownNonError => simp [tryBlock, makeRequest, catchClause, errStatus]
  | response ok status statusText body =>
    cases body with
    | none =>
      cases ok <;> simp [tryBlock, makeRequest, catchClause, errStatus]
    | some pr =>
      cases pr with
      | ok v =>
        cases ok <;> simp [tryBlock, makeRequest, catchClause, errStatus]
      | error msg => simp [tryBlock, makeRequest, catchClause, errStatus]

/-- C9 counterexample: a response with no error field and a present but
JS-falsy `data` value (`false`).  The claim says `handleAPIResponse`
returns the data unchanged; the code throws `No data received from API`
because the truthiness test `!response.data` fires on falsy values, not
only on absent ones. -/
theorem handleAPIResponse_claim_counterexample :
    ({ data := some (JSVal.bool false), error := none,
       status := 200 } : APIResponse).error = none ∧
    ({ data := some (JSVal.bool false), error := none,
       status := 200 } : APIResponse).data.isSome = true ∧
    handleAPIResponse
        { data := some (JSVal.bool false), error := none, status := 200 } =
      HandleResult.threw "No data received from API" 200 := by
  decide

/-- C9 amended: `handleAPIResponse` throws an `APIError` exactly when the
error field is present and non-empty, or the data field is absent or holds
a JS-falsy value; otherwise (truthy data, no non-empty error) it returns
`response.data` unchanged.  In particular a successful response with no
JSON payload (`data` absent) is always thrown as an error, never returned
as data. -/
theorem handleAPIResponse_throws_iff (r : APIResponse) :
    ((∃ m s, handleAPIResponse r = HandleResult.threw m s) ↔
      (∃ s, r.error = some s ∧ s ≠ "") ∨ r.data = none ∨
        (∃ v, r.data = some v ∧ jsTruthy v = false)) ∧
    (∀ v, r.data = some v → jsTruthy v = true →
      (r.error = none ∨ r.error = some "") →
      handleAPIResponse r = HandleResult.returned v) := by
  obtain ⟨d, e, st⟩ := r
  constructor
  · cases e with
    | none =>
      cases d with
      | none => simp [handleAPIResponse, errTruthy, dataTruthy]
      | some v =>
        by_cases hv : jsTruthy v <;>
          simp [handleAPIResponse, errTruthy, dataTruthy, hv]
    | some es =>
      by_cases he : es = ""
      · subst he
        cases d with
        | none => simp [handleAPIResponse, errTruthy, dataTruthy]
        | some v =>
          by_cases hv : jsTruthy v <;>
            simp [handleAPIResponse, errTruthy, dataTruthy, hv]
      · simp [handleAPIResponse, errTruthy, dataTruthy, he]
  · intro v hv htruthy herr
    rcases herr with h | h <;> subst h <;> cases hv <;>
      simp [handleAPIResponse, errTruthy, dataTruthy, htruthy]

/-- C9 witness: a truthy object payload with no error field is returned
unchanged. -/
theorem handleAPIResponse_throws_iff_witness :
    handleAPIResponse
        { data := some (JSVal.obj "x"), error := none, status := 200 } =
      HandleResult.returned (JSVal.obj "x") :=
  (handleAPIResponse_throws_iff
      { data := some (JSVal.obj "x"), error := none, status := 200 }).2
    (JSVal.obj "x") rfl rfl (Or.inl rfl)

/-- C10 counterexample: at `maxLength = -1` the input `"abc"` is
truncated (its length exceeds -1), JS `slice(0, -1)` keeps all but the
last character, and the result `"ab..."` has length 5, not
`maxLength + 3 = 2` as the claim states for every truncated input. -/
theorem truncateText_claim_counterexample :
    ¬ (("abc".length : Int) ≤ -1) ∧
    truncateText "abc" (-1) = "ab..." ∧
    ((truncateText "abc" (-1)).length : Int) ≠ -1 + 3 := by
  decide

/-- C10 amended: for every non-negative `maxLength`, `truncateText`
returns the text unchanged when its length is at most `maxLength`, and
otherwise returns the first `maxLength` characters followed by `"..."`,
whose length is `maxLength + 3` and therefore strictly exceeds
`maxLength`.  (For negative `maxLength` the JS slice semantics make the
claim fail, see the counterexample.) -/
theorem truncateText_spec (text : String) (maxLength : Int)
    (h0 : 0 ≤ maxLength) :
    ((text.length : Int) ≤ maxLength → truncateText text maxLength = text) ∧
    (maxLength < (text.length : Int) →
      truncateText text maxLength =
        String.mk (text.data.take maxLength.toNat) ++ "..." ∧
      ((truncateText text maxLength).length : Int) = maxLength + 3 ∧
      maxLength < ((truncateText text maxLength).length : Int)) := by
  constructor
  · intro h
    simp [truncateText, h]
  · intro h
    have hnot : ¬ ((text.length : Int) ≤ maxLength) := not_le.mpr h
    have hslice : jsSliceTo text maxLength =
        String.mk (text.data.take maxLength.toNat) := by
      unfold jsSliceTo
      have hneg : ¬ (maxLength < 0) := not_lt.mpr h0
      simp only [hneg, if_false]
      rw [min_eq_left (le_of_lt h)]
    have heq : truncateText text maxLength =
        String.mk (text.data.take maxLength.toNat) ++ "..." := by
      unfold truncateText
      rw [if_neg hnot, hslice]
    have htake : (String.mk (text.data.take maxLength.toNat)).length =
        maxLength.toNat := by
      show (text.data.take maxLength.toNat).length = maxLength.toNat
      rw [List.length_take]
      exact min_eq_left (Int.toNat_le.mpr (le_of_lt h))
    have hlen : ((truncateText text maxLength).length : Int) =
        maxLength + 3 := by
      rw [heq, strLength_append, htake]
      have hdots : ("..." : String).length = 3 := rfl
      rw [hdots]
      push_cast
      rw [Int.toNat_of_nonneg h0]
    exact ⟨heq, hlen, by rw [hlen]; omega⟩

/-- C10 witness: truncating `"abcd"` at 2 yields the first two characters
plus the ellipsis, of length `2 + 3`. -/
theorem truncateText_spec_witness :
    truncateText "abcd" 2 = String.mk ("abcd".data.take (Int.toNat 2)) ++ "..." ∧
    ((truncateText "abcd" 2).length : Int) = 2 + 3 :=
  ⟨((truncateText_spec "abcd" 2 (by decide)).2 (by decide)).1,
   ((truncateText_spec "abcd" 2 (by decide)).2 (by decide)).2.1⟩

/-- C7 counterexample: the Clear Cache button of the GraphRAG page issues
the cache clear request directly in its click handler; no confirmation
step occurs anywhere on that path, contradicting the claim that every
clear-triggering path is guarded by an explicit confirmation. -/
theorem cacheClear_unconfirmed_counterexample :
    UIEffect.sendCacheRequest CacheAction.clear ∈
      clickEffects CacheButton.clearCache ∧
    UIEffect.showConfirmDialog ∉ clickEffects CacheButton.clearCache := by
  decide

/-- C7 amended: the only caller-layer path that triggers the cache clear
action is the Clear Cache button, and that path performs no confirmation
step before issuing the request. -/
theorem cacheClear_no_confirmation (b : CacheButton)
    (h : UIEffect.sendCacheRequest CacheAction.clear ∈ clickEffects b) :
    b = CacheButton.clearCache ∧
    UIEffect.showConfirmDialog ∉ clickEffects b := by
  cases b with
  | warmCache => exact absurd h (by decide)
  | validateCache => exact absurd h (by decide)
  | refreshStats => exact absurd h (by decide)
  | clearCache => exact ⟨rfl, by decide⟩

/-- C7 witness: instantiating at the Clear Cache button. -/
theorem cacheClear_no_confirmation_witness :
    CacheButton.clearCache = CacheButton.clearCache ∧
    UIEffect.showConfirmDialog ∉ clickEffects CacheButton.clearCache :=
  cacheClear_no_confirmation CacheButton.clearCache (by decide)

/-- C2: a `Get` immediately following a `Put` with the same key returns
found and the exact payload written — the commit of `Put` installs the
full entry for its key at the head of the store, so the reader never
observes a partial entry. -/
theorem cache_get_after_put (c : PersistentCache) (k p : String) :
    (c.put k p).get k = (some p, true) := by
  simp [PersistentCache.get, PersistentCache.put, List.find?]

/-- Characters with equal code points are equal. -/
theorem char_eq_of_toNat_eq {a b : Char} (h : a.toNat = b.toNat) : a = b :=
  Char.eq_of_val_eq (UInt32.toNat.inj h)

/-- `charListLe` is total. -/
theorem charListLe_total : ∀ a b : List Char,
    charListLe a b = true ∨ charListLe b a = true
  | [], _ => Or.inl rfl
  | _ :: _, [] => Or.inr rfl
  | a :: as, b :: bs => by
    rcases Nat.lt_trichotomy a.toNat b.toNat with h | h | h
    · left; simp [charListLe, h]
    · rcases charListLe_total as bs with ih | ih
      · left; simp [charListLe, h, ih]
      · right; simp [charListLe, h.symm, ih]
    · right; simp [charListLe, h]

/-- `charListLe` is transitive. -/
theorem charListLe_trans : ∀ a b c : List Char, charListLe a b = true →
    charListLe b c = true → charListLe a c = true
  | [], _, _, _, _ => rfl
  | _ :: _, [], _, hab, _ => by simp [charListLe] at hab
  | _ :: _, _ :: _, [], _, hbc => by simp [charListLe] at hbc
  | a :: as, b :: bs, c :: cs, hab, hbc => by
    rcases Nat.lt_trichotomy a.toNat b.toNat with h1 | h1 | h1
    · rcases Nat.lt_trichotomy b.toNat c.toNat with h2 | h2 | h2
      · simp [charListLe, Nat.lt_trans h1 h2]
      · simp [charListLe, h2 ▸ h1]
      · simp [charListLe, Nat.lt_asymm h2, h2] at hbc
    · have hab' : charListLe as bs = true := by
        simpa [charListLe, h1] using hab
      rcases Nat.lt_trichotomy b.toNat c.toNat with h2 | h2 | h2
      · have : a.toNat < c.toNat := h1 ▸ h2
        simp [charListLe, this]
      · have hbc' : charListLe bs cs = true := by
          simpa [charListLe, h2] using hbc
        have hac : a.toNat = c.toNat := h1.trans h2
        simp [charListLe, hac, charListLe_trans as bs cs hab' hbc']
      · simp [charListLe, Nat.lt_asymm h2, h2] at hbc
    · simp [charListLe, Nat.lt_asymm h1, h1] at hab

/-- `charListLe` is antisymmetric. -/
theorem charListLe_antisymm : ∀ a b : List Char, charListLe a b = true →
    charListLe b a = true → a = b
  | [], [], _, _ => rfl
  | [], _ :: _, _, hba => by simp [charListLe] at hba
  | _ :: _, [], hab, _ => by simp [charListLe] at hab
  | a :: as, b :: bs, hab, hba => by
    rcases Nat.lt_trichotomy a.toNat b.toNat with h | h | h
    · simp [charListLe, Nat.lt_asymm h, h] at hba
    · have hc : a = b := char_eq_of_toNat_eq h
      subst hc
      have hab' : charListLe as bs = true := by simpa [charListLe] using hab
      have hba' : charListLe bs as = true := by simpa [charListLe] using hba
      rw [charListLe_antisymm as bs hab' hba']
    · simp [charListLe, Nat.lt_asymm h, h] at hab

/-- `strLeProp` is total. -/
theorem strLe_total (a b : String) : strLeProp a b ∨ strLeProp b a :=
  charListLe_total a.data b.data

/-- `strLeProp` is transitive. -/
theorem strLe_trans (a b c : String) :
    strLeProp a b → strLeProp b c → strLeProp a c :=
  fun h1 h2 => charListLe_trans a.data b.data c.data h1 h2

/-- `strLeProp` is antisymmetric. -/
theorem strLe_antisymm (a b : String) :
    strLeProp a b → strLeProp b a → a = b := by
  intro h1 h2
  cases a with
  | mk la =>
    cases b with
    | mk lb =>
      exact congrArg String.mk (charListLe_antisymm la lb h1 h2)

/-- C6: the canonical cache key is invariant under permutation of the
parameter list — two logically identical requests hash identically
regardless of the order in which the arguments are supplied. -/
theorem canonicalCacheKey_order_invariant (p1 p2 : List (String × String))
    (h : p1.Perm p2) :
    canonicalCacheKey p1 = canonicalCacheKey p2 := by
  unfold canonicalCacheKey
  congr 1
  haveI : IsTotal String strLeProp := ⟨strLe_total⟩
  haveI : IsTrans String strLeProp := ⟨strLe_trans⟩
  haveI : IsAntisymm String strLeProp := ⟨strLe_antisymm⟩
  refine List.eq_of_perm_of_sorted ?_ (List.sorted_insertionSort _ _)
    (List.sorted_insertionSort _ _)
  exact ((List.perm_insertionSort _ _).trans (h.map _)).trans
    (List.perm_insertionSort _ _).symm

/-- C6 witness: swapping two parameters leaves the key unchanged. -/
theorem canonicalCacheKey_order_invariant_witness :
    canonicalCacheKey [("dimension", "geographic"), ("year_scope", "1961")] =
      canonicalCacheKey [("year_scope", "1961"), ("dimension", "geographic")] :=
  canonicalCacheKey_order_invariant
    [("dimension", "geographic"), ("year_scope", "1961")]
    [("year_scope", "1961"), ("dimension", "geographic")]
    (List.Perm.swap ("year_scope", "1961") ("dimension", "geographic") [])

/-- C5: community selection never passes more communities than the cap
(`max_communities_per_query`, configured default 100: the `AnswerGlobal`
selection stage uses exactly that cap), and whenever truncation occurs
every retained community has at least as many members as every discarded
community. -/
theorem selectTop_cap_and_preference (cs : List Community) (cap : Nat) :
    graphragMaxCommunitiesPerQuery = 100 ∧
    (selectTop cap cs).length ≤ cap ∧
    (∀ g dims sc minSize, selectedOf g dims sc minSize =
      selectTop graphragMaxCommunitiesPerQuery
        (candidatesOf g dims sc minSize)) ∧
    ∀ c ∈ selectTop cap cs, ∀ c' ∈ discardedBy cap cs,
      c'.members.length ≤ c.members.length := by
  refine ⟨rfl, ?_, fun _ _ _ _ => rfl, ?_⟩
  · exact List.length_take_le cap (rankBySize cs)
  · intro c hc c' hc'
    have hs : List.Sorted byMemberCountDesc (rankBySize cs) :=
      List.sorted_insertionSort byMemberCountDesc cs
    have hp : List.Pairwise byMemberCountDesc
        ((rankBySize cs).take cap ++ (rankBySize cs).drop cap) := by
      rw [List.take_append_drop]
      exact hs
    exact (List.pairwise_append.mp hp).2.2 c hc c' hc'

/-- C5 witness: with cap 1, the larger of two communities is retained and
the smaller discarded, and the retained one has at least as many
members. -/
theorem selectTop_cap_and_preference_witness :
    smallCommunity.members.length ≤ bigCommunity.members.length :=
  (selectTop_cap_and_preference [smallCommunity, bigCommunity] 1).2.2.2
    bigCommunity (by decide) smallCommunity (by decide)

/-- C3: when the Map phase produces zero relevant partial answers across
all selected communities (and the query did not fail fast), `AnswerGlobal`
still terminates in the `Done` state and its answer is the fixed
"insufficient information" sentinel, not an error. -/
theorem answerGlobal_insufficient_information (g : Snapshot) (env : GenEnv)
    (q : String) (sc : YearScope) (dims : List Dimension) (minSize : Nat)
    (hc : candidatesOf g dims sc minSize ≠ []) (ha : env.available = true)
    (hmap : mapOutputsOf env q g dims sc minSize = []) :
    ∃ r : QueryResult,
      AnswerGlobal g env q sc dims minSize = EngineOutcome.Done r ∧
      r.answer = insufficientInformation := by
  have h1 : ¬ ((candidatesOf g dims sc minSize).isEmpty = true) :=
    fun hh => hc (List.isEmpty_iff.mp hh)
  have h2 : ¬ ((!env.available) = true) := by simp [ha]
  unfold AnswerGlobal
  rw [if_neg h1, if_neg h2]
  refine ⟨_, rfl, ?_⟩
  simp [hmap]

/-- C3 witness: a snapshot with two geographic communities and an
environment whose map step never finds relevance yields a `Done` result
with the sentinel answer. -/
theorem answerGlobal_insufficient_information_witness :
    ∃ r : QueryResult,
      AnswerGlobal sampleSnapshot envNoRelevant "q" YearScope.all
        [Dimension.geographic] 1 = EngineOutcome.Done r ∧
      r.answer = insufficientInformation :=
  answerGlobal_insufficient_information sampleSnapshot envNoRelevant "q"
    YearScope.all [Dimension.geographic] 1 (by decide) rfl (by decide)

/-- C4: if summary generation fails after retries for exactly `N` of the
`M` selected communities with `M > N > 0` (and the query did not fail
fast), `AnswerGlobal` still terminates in the `Done` state; its result
references exactly the `M - N` surviving communities (their ids, and
`communitiesAnalyzed = M - N`), and the per-community failures are
recorded in the result metadata instead of propagating as a hard
failure. -/
theorem answerGlobal_partial_failure_tolerance (g : Snapshot) (env : GenEnv)
    (q : String) (sc : YearScope) (dims : List Dimension) (minSize : Nat)
    (M N : Nat)
    (hc : candidatesOf g dims sc minSize ≠ []) (ha : env.available = true)
    (hM : (selectedOf g dims sc minSize).length = M)
    (hN : (failedOf env g dims sc minSize).length = N)
    (_hNpos : 0 < N) (hNM : N < M) :
    ∃ r : QueryResult,
      AnswerGlobal g env q sc dims minSize = EngineOutcome.Done r ∧
      r.communitiesAnalyzed = M - N ∧
      r.analyzedCommunityIds =
        (analyzedOf env g dims sc minSize).map Community.id ∧
      r.analyzedCommunityIds.length = M - N ∧
      r.failedCommunityIds =
        (failedOf env g dims sc minSize).map Community.id := by
  have hsplit : (selectedOf g dims sc minSize).length =
      (analyzedOf env g dims sc minSize).length +
        (failedOf env g dims sc minSize).length :=
    @List.length_eq_length_filter_add Community
      (selectedOf g dims sc minSize) (summaryOk env)
  have hA : (analyzedOf env g dims sc minSize).length = M - N := by omega
  have h1 : ¬ ((candidatesOf g dims sc minSize).isEmpty = true) :=
    fun hh => hc (List.isEmpty_iff.mp hh)
  have h2 : ¬ ((!env.available) = true) := by simp [ha]
  unfold AnswerGlobal
  rw [if_neg h1, if_neg h2]
  refine ⟨_, rfl, hA, rfl, ?_, rfl⟩
  simpa using hA

/-- C4 witness: two selected geographic communities, summarization failing
for exactly one of them, still yields a `Done` result referencing the one
surviving community. -/
theorem answerGlobal_partial_failure_tolerance_witness :
    ∃ r : QueryResult,
      AnswerGlobal sampleSnapshot envOneFails "q" YearScope.all
        [Dimension.geographic] 1 = EngineOutcome.Done r ∧
      r.communitiesAnalyzed = 2 - 1 ∧
      r.analyzedCommunityIds =
        (analyzedOf envOneFails sampleSnapshot [Dimension.geographic]
          YearScope.all 1).map Community.id ∧
      r.analyzedCommunityIds.length = 2 - 1 ∧
      r.failedCommunityIds =
        (failedOf envOneFails sampleSnapshot [Dimension.geographic]
          YearScope.all 1).map Community.id :=
  answerGlobal_partial_failure_tolerance sampleSnapshot envOneFails "q"
    YearScope.all [Dimension.geographic] 1 2 1 (by decide) rfl (by decide)
    (by decide) (by decide) (by decide)

/-- Every member of a `communitiesFromKeys` result is the community of
one of the listed keys. -/
theorem mem_communitiesFromKeys_exists {d : Dimension} {sc : YearScope}
    {keys : List PartitionKey} {memberOf : PartitionKey → Entity → Bool}
    {minSize : Nat} {es : List Entity} {c : Community}
    (h : c ∈ communitiesFromKeys d sc keys memberOf minSize es) :
    ∃ k ∈ keys, c = communityForKey d sc memberOf es k := by
  have h1 := (List.mem_filter.mp h).1
  obtain ⟨k, hk, hck⟩ := List.mem_map.mp h1
  exact ⟨k, List.mem_dedup.mp hk, hck.symm⟩

/-- Within one `communitiesFromKeys` result, equal ids force equal
membership: the community is a function of its partition key, and the key
is a field of the id. -/
theorem communitiesFromKeys_idFunctional (d : Dimension) (sc : YearScope)
    (keys : List PartitionKey) (memberOf : PartitionKey → Entity → Bool)
    (minSize : Nat) (es : List Entity) :
    IdFunctional (communitiesFromKeys d sc keys memberOf minSize es) := by
  intro c hc c' hc' hid
  obtain ⟨k, _, rfl⟩ := mem_communitiesFromKeys_exists hc
  obtain ⟨k', _, rfl⟩ := mem_communitiesFromKeys_exists hc'
  have hk : k = k' := congrArg CommunityId.key hid
  subst hk
  rfl

/-- The partition key of a produced community is one of the listed keys. -/
theorem key_of_mem_communitiesFromKeys {d : Dimension} {sc : YearScope}
    {keys : List PartitionKey} {memberOf : PartitionKey → Entity → Bool}
    {minSize : Nat} {es : List Entity} {c : Community}
    (h : c ∈ communitiesFromKeys d sc keys memberOf minSize es) :
    c.id.key ∈ keys := by
  obtain ⟨k, hk, rfl⟩ := mem_communitiesFromKeys_exists h
  exact hk

/-- Id-functionality is preserved by concatenation of id-disjoint
lists. -/
theorem idFunctional_append {l1 l2 : List Community}
    (h1 : IdFunctional l1) (h2 : IdFunctional l2)
    (hdisj : ∀ c ∈ l1, ∀ c' ∈ l2, c.id ≠ c'.id) :
    IdFunctional (l1 ++ l2) := by
  intro c hc c' hc' hid
  rcases List.mem_append.mp hc with h | h <;>
    rcases List.mem_append.mp hc' with h' | h'
  · exact h1 c h c' h' hid
  · exact absurd hid (hdisj c h c' h')
  · exact absurd hid.symm (hdisj c' h' c h)
  · exact h2 c h c' h' hid

/-- Era communities carry era partition keys. -/
theorem eraCommunities_key {g : Snapshot} {sc : YearScope} {minSize : Nat}
    {c : Community} (h : c ∈ eraCommunities g sc minSize) :
    ∃ n, c.id.key = PartitionKey.era n := by
  unfold eraCommunities at h
  have hk := key_of_mem_communitiesFromKeys h
  obtain ⟨b, _, hb⟩ := List.mem_map.mp hk
  exact ⟨b.1, hb.symm⟩

/-- Evolution communities carry evolution partition keys. -/
theorem evolutionCommunities_key {g : Snapshot} {sc : YearScope}
    {minSize : Nat} {c : Community}
    (h : c ∈ evolutionCommunities g sc minSize) :
    ∃ p, c.id.key = PartitionKey.evolution p := by
  unfold evolutionCommunities at h
  have hk := key_of_mem_communitiesFromKeys h
  obtain ⟨e, _, he⟩ := List.mem_map.mp hk
  exact ⟨evolutionPattern (longestRun e.years), he.symm⟩

/-- Snapshot-year communities carry snapshot-year partition keys. -/
theorem snapshotCommunities_key {g : Snapshot} {sc : YearScope}
    {minSize : Nat} {c : Community}
    (h : c ∈ snapshotCommunities g sc minSize) :
    ∃ y, c.id.key = PartitionKey.snapshotYear y := by
  unfold snapshotCommunities at h
  have hk := key_of_mem_communitiesFromKeys h
  obtain ⟨y, _, hy⟩ := List.mem_map.mp hk
  exact ⟨y, hy.symm⟩

/-- The three temporal grouping families produce disjoint ids, so temporal
detection as a whole is id-functional. -/
theorem detectTemporal_idFunctional (g : Snapshot) (sc : YearScope)
    (minSize : Nat) : IdFunctional (detectTemporal g sc minSize) := by
  unfold detectTemporal
  refine idFunctional_append (idFunctional_append ?_ ?_ ?_) ?_ ?_
  · unfold eraCommunities
    exact communitiesFromKeys_idFunctional _ _ _ _ _ _
  · unfold evolutionCommunities
    exact communitiesFromKeys_idFunctional _ _ _ _ _ _
  · intro c hc c' hc' hid
    obtain ⟨n, hn⟩ := eraCommunities_key hc
    obtain ⟨p, hp⟩ := evolutionCommunities_key hc'
    rw [hid, hp] at hn
    exact PartitionKey.noConfusion hn
  · unfold snapshotCommunities
    exact communitiesFromKeys_idFunctional _ _ _ _ _ _
  · intro c hc c' hc' hid
    obtain ⟨y, hy⟩ := snapshotCommunities_key hc'
    rcases List.mem_append.mp hc with h | h
    · obtain ⟨n, hn⟩ := eraCommunities_key h
      rw [hid, hy] at hn
      exact PartitionKey.noConfusion hn
    · obtain ⟨p, hp⟩ := evolutionCommunities_key h
      rw [hid, hy] at hp
      exact PartitionKey.noConfusion hp

/-- Every dimension's detector is id-functional. -/
theorem detectCommunities_idFunctional (g : Snapshot) (d : Dimension)
    (sc : YearScope) (minSize : Nat) :
    IdFunctional (DetectCommunities g d sc minSize) := by
  cases d with
  | geographic => exact communitiesFromKeys_idFunctional _ _ _ _ _ _
  | operational => exact communitiesFromKeys_idFunctional _ _ _ _ _ _
  | temporal => exact detectTemporal_idFunctional g sc minSize
  | service_type => exact communitiesFromKeys_idFunctional _ _ _ _ _ _

/-- C1: detection is deterministic — two runs of `DetectCommunities` on a
fixed snapshot with identical parameters yield identical community id
lists, and any communities of the two runs that share an id have
identical membership (the community production, including the Louvain
pass with its lower-id tie-break, is a function of the snapshot and the
parameters, and membership is a function of the id's partition key). -/
theorem detectCommunities_deterministic (g : Snapshot) (d : Dimension)
    (sc : YearScope) (minSize : Nat) :
    (DetectCommunities g d sc minSize).map Community.id =
      (DetectCommunities g d sc minSize).map Community.id ∧
    ∀ c ∈ DetectCommunities g d sc minSize,
      ∀ c' ∈ DetectCommunities g d sc minSize,
        c.id = c'.id → c.members = c'.members :=
  ⟨rfl, detectCommunities_idFunctional g d sc minSize⟩

/-- C1 witness: on the sample snapshot, the Mitte community of either run
has exactly the members of the other run's same-id community. -/
theorem detectCommunities_deterministic_witness :
    sampleGeoCommunity.members = [1, 2] :=
  (detectCommunities_deterministic sampleSnapshot Dimension.geographic
      YearScope.all 1).2
    sampleGeoCommunity (by decide)
    { id := sampleGeoCommunity.id, members := [1, 2] } (by decide) rfl
